import Mathlib

/-!
Shallow embedding of the role/permission authorization core of the
CQTRAILSADMINCORE backend:

* `rolespermisosmiddleware/middleware.py` — the `RolesPermisosMiddleware.dispatch`
  gate, the `check_permission` helper, the module-level `PERMISOS_CACHE` and
  `clear_permissions_cache`;
* `controllers/rolespermiso_controller.py` — the administrative CRUD surface of
  the role-permission matrix (`create_or_update_rol_permiso`,
  `update_rol_permiso`, `delete_rol_permiso`).

Python strings are modelled by Lean `String`; the handful of `str` methods the
source uses (`lower`, `endswith`, slicing from the right, `strip`, `split`)
are given executable models over `String.data`.  Database tables are lists of
rows; SQL `first()` / `scalar()` are `List.find?` over those lists, with
Python truthiness (`if not role_id`) modelled explicitly.
-/

namespace CQTrails

/-- Python `s.lower()` (ASCII as used by the repo's identifiers). -/
def pyLower (s : String) : String := String.mk (s.data.map Char.toLower)

/-- Python `s.endswith(suf)`. -/
def pyEndswith (s suf : String) : Bool := suf.data.isSuffixOf s.data

/-- Python `s[:-n]` — drop the last `n` characters. -/
def pyDropRight (s : String) (n : Nat) : String :=
  String.mk (s.data.take (s.data.length - n))

/-- Python `s.strip(c)` — drop leading and trailing occurrences of `c`. -/
def pyStrip (c : Char) (s : String) : String :=
  String.mk (((s.data.dropWhile (· == c)).reverse.dropWhile (· == c)).reverse)

/-- Python `s.split("/")[0]` — everything before the first slash. -/
def firstSegment (s : String) : String :=
  String.mk (s.data.takeWhile (· != '/'))

/-- The single-quote character used inside the middleware's detail messages. -/
def sq : String := String.mk [Char.ofNat 39]

/-! ## Data model (`dbcontext.models`: `Roles`, `Permisos`, `t_RolesPermisos`) -/

/-- A row of `miguel."Roles"`. -/
structure RolRow where
  idRol : Nat
  nombreRol : String
  deriving DecidableEq

/-- A row of `miguel."Permisos"`. -/
structure PermisoRow where
  idPermiso : Nat
  nombrePermiso : String
  deriving DecidableEq

/-- A row of `miguel."RolesPermisos"` (composite key + four boolean flags). -/
structure RolPermisoRow where
  idRol : Nat
  idPermiso : Nat
  crear : Bool
  editar : Bool
  leer : Bool
  eliminar : Bool
  deriving DecidableEq

/-- The backing store consulted by the middleware. -/
structure Db where
  roles : List RolRow
  permisos : List PermisoRow
  rolesPermisos : List RolPermisoRow
  deriving DecidableEq

/-! ## `HTTP_METHOD_TO_PERMISSION` (middleware.py lines 43–49) -/

/-- `HTTP_METHOD_TO_PERMISSION.get(method)`: maps an HTTP method to the name
of the boolean column of `RolesPermisos` that governs it. -/
def HTTP_METHOD_TO_PERMISSION : String → Option String
  | "GET" => some "Leer"
  | "POST" => some "Crear"
  | "PUT" => some "Editar"
  | "PATCH" => some "Editar"
  | "DELETE" => some "Eliminar"
  | _ => none

/-! ## `PERMISOS_CACHE` (middleware.py line 53)

`Dict[str, Dict[str, Dict[str, bool]]]`: role name → controller name →
permission-column name → bool.  The inner `Dict[str, bool]` always holds the
four columns, so it is modelled as a record of four booleans together with
the defaulting read `dict.get(name, False)`.  Note: entries carry **no
timestamp** — the type itself has no room for one. -/

/-- The four booleans stored per (role, controller) in `PERMISOS_CACHE`. -/
structure PermFlags where
  crear : Bool
  editar : Bool
  leer : Bool
  eliminar : Bool
  deriving DecidableEq

/-- `flags.get(name, False)` on the inner permission dict. -/
def flagsGet (f : PermFlags) (name : String) : Bool :=
  if name == "Crear" then f.crear
  else if name == "Editar" then f.editar
  else if name == "Leer" then f.leer
  else if name == "Eliminar" then f.eliminar
  else false

/-- Association-list model of a Python `dict` keyed by `str`. -/
def assocFind {α : Type} (l : List (String × α)) (k : String) : Option α :=
  (l.find? (fun p => p.1 == k)).map (·.2)

/-- `d[k] = v` on the association-list model of a `dict`. -/
def assocSet {α : Type} (l : List (String × α)) (k : String) (v : α) :
    List (String × α) :=
  if l.any (fun p => p.1 == k) then
    l.map (fun p => if p.1 == k then (k, v) else p)
  else l ++ [(k, v)]

/-- The module-level `PERMISOS_CACHE`. -/
abbrev Cache := List (String × List (String × PermFlags))

/-- `PERMISOS_CACHE[role_name][controller_name] = flags`, creating the inner
dict when the role key is absent (middleware.py lines 364–378). -/
def cachePut (c : Cache) (role ctrl : String) (f : PermFlags) : Cache :=
  let inner := (assocFind c role).getD []
  assocSet c role (assocSet inner ctrl f)

/-- `clear_permissions_cache` (middleware.py lines 398–404): reassigns the
module global to a fresh empty dict. -/
def clear_permissions_cache (_c : Cache) : Cache := []

/-! ## Controller-name variants (middleware.py lines 167–175 and 289–298) -/

/-- The singular/plural spelling variants tried against the `Permisos`
catalog, in order. -/
def controller_variants (controller_name : String) : List String :=
  if pyEndswith controller_name "es" then
    [controller_name, pyDropRight controller_name 2]
  else if pyEndswith controller_name "s" then
    [controller_name, pyDropRight controller_name 1]
  else
    [controller_name, controller_name ++ "s", controller_name ++ "es"]

/-! ## The SQL lookups issued by `dispatch` -/

/-- `SELECT "IdRol" FROM miguel."Roles" WHERE LOWER("NombreRol") =
LOWER(:role_name)` followed by `.scalar()` — first matching row's id. -/
def roleIdQuery (db : Db) (roleName : String) : Option Nat :=
  (db.roles.find? (fun r => pyLower r.nombreRol == pyLower roleName)).map (·.idRol)

/-- Python truthiness of `role_id` after `.scalar()`: both `None` and `0`
fail the `if not role_id` test. -/
def scalarTruthy : Option Nat → Option Nat
  | none => none
  | some 0 => none
  | some (n + 1) => some (n + 1)

/-- `SELECT "IdPermiso", "NombrePermiso" FROM miguel."Permisos" WHERE
LOWER("NombrePermiso") = LOWER(:controller_name)` followed by `.first()`. -/
def permisoQuery (db : Db) (variant : String) : Option PermisoRow :=
  db.permisos.find? (fun p => pyLower p.nombrePermiso == pyLower variant)

/-- The `for variant in controller_variants` loop (middleware.py 182–196):
first variant with a catalog row wins. -/
def resolvePermiso (db : Db) : List String → Option PermisoRow
  | [] => none
  | v :: rest =>
    match permisoQuery db v with
    | some row => some row
    | none => resolvePermiso db rest

/-- `SELECT rp."<col>" FROM miguel."RolesPermisos" rp WHERE rp."IdRol" =
:role_id AND rp."IdPermiso" = :permission_id` followed by `.first()`. -/
def rolePermisoQuery (db : Db) (roleId permisoId : Nat) : Option RolPermisoRow :=
  db.rolesPermisos.find? (fun rp => rp.idRol == roleId && rp.idPermiso == permisoId)

/-- Reading the selected boolean column of a `RolesPermisos` row. -/
def columnValue (rp : RolPermisoRow) (col : String) : Bool :=
  if col == "Crear" then rp.crear
  else if col == "Editar" then rp.editar
  else if col == "Leer" then rp.leer
  else if col == "Eliminar" then rp.eliminar
  else false

/-! ## Requests and authentication outcome -/

/-- The decoded token payload as read by `dispatch` (middleware.py 101–120):
`payload.get("user_id")`, `payload.get("email")`, `payload.get("role", "")`,
`payload.get("permissions", [])`. -/
structure TokenPayload where
  user_id : Option Nat
  email : String
  role : String
  permissions : List String
  deriving DecidableEq

/-- Outcome of the header check plus `decode_token` (middleware.py 85–130):
either no/bad `Authorization: Bearer` header, an exception from decoding
(with its message), or a decoded payload. -/
inductive AuthOutcome where
  | noBearer : AuthOutcome
  | decodeError : String → AuthOutcome
  | ok : TokenPayload → AuthOutcome
  deriving DecidableEq

/-- An inbound HTTP request as seen by the middleware. -/
structure Request where
  path : String
  method : String
  auth : AuthOutcome
  deriving DecidableEq

/-- Python truthiness of `user_id` (`None` and `0` are falsy). -/
def truthyNat : Option Nat → Bool
  | none => false
  | some 0 => false
  | some (_ + 1) => true

/-! ## Public-path allow list (middleware.py lines 56–65)

The patterns are anchored (`^...$`) literals where `.` matches any single
character and a trailing `.*` matches any remainder — exactly the regex
features the eight patterns use. -/

/-- Full-string match for the anchored mini-patterns of `PUBLIC_PATHS`. -/
def regexFullMatch : List Char → List Char → Bool
  | [], [] => true
  | ['.', '*'], _ => true
  | '.' :: ps, _ :: cs => regexFullMatch ps cs
  | p :: ps, c :: cs => (p == c) && regexFullMatch ps cs
  | _, _ => false

/-- `PUBLIC_PATHS` with the `^`/`$` anchors stripped (matching is full-string). -/
def PUBLIC_PATHS : List String :=
  ["/docs", "/docs/.*", "/redoc", "/openapi.json", "/", "/auth/login",
   "/auth/register", "/favicon.ico"]

/-- `any(re.match(pattern, path) for pattern in PUBLIC_PATHS)`. -/
def isPublic (path : String) : Bool :=
  PUBLIC_PATHS.any (fun pat => regexFullMatch pat.data path.data)

/-! ## Responses -/

/-- `JSONResponse(status_code=..., content=\x7b"detail": ...\x7d)`. -/
structure JsonResponse where
  status_code : Nat
  detail : String
  deriving DecidableEq

/-- What `dispatch` returns: either the request is passed to
`call_next` (allowed through the gate) or a terminal `JSONResponse`. -/
inductive DispatchResult where
  | next : DispatchResult
  | response : JsonResponse → DispatchResult
  deriving DecidableEq

/-- `true` iff the gate let the request through to its handler. -/
def decisionAllowed : DispatchResult → Bool
  | .next => true
  | .response _ => false

/-- The HTTP status the gate answered with (`none` when allowed through). -/
def statusOf : DispatchResult → Option Nat
  | .next => none
  | .response r => some r.status_code

/-! ## `RolesPermisosMiddleware.dispatch` (middleware.py lines 72–261)

The whole body is embedded in source order.  The `if not path_parts` branch
(line 135) is unreachable — Python's `"".split("/")` is `[""]`, never `[]` —
and is omitted.  The `except` wrapper around the database block (line 255,
HTTP 500) corresponds to database failures, which the pure `Db` model cannot
raise; every lookup below is total. -/

/-- `controller_name = path.strip("/").split("/")[0].lower()`
(middleware.py lines 134–142). -/
def controllerOf (path : String) : String :=
  pyLower (firstSegment (pyStrip '/' path))

/-- The gate: one authorization decision per request, returning the result
together with the (untouched) module cache. -/
def dispatch (db : Db) (cache : Cache) (req : Request) : DispatchResult × Cache :=
  if isPublic req.path then (.next, cache)
  else
    match req.auth with
    | .noBearer => (.response ⟨401, "No autenticado"⟩, cache)
    | .decodeError msg => (.response ⟨401, "Token inválido: " ++ msg⟩, cache)
    | .ok payload =>
      if !truthyNat payload.user_id || payload.role == "" then
        (.response ⟨401, "Token inválido: falta información de usuario o rol"⟩, cache)
      else
        let controller_name := controllerOf req.path
        match scalarTruthy (roleIdQuery db payload.role) with
        | none =>
          (.response ⟨403, "Acceso denegado: Rol " ++ sq ++ payload.role ++ sq
            ++ " no encontrado"⟩, cache)
        | some role_id =>
          match resolvePermiso db (controller_variants controller_name) with
          | none =>
            (.response ⟨403, "Acceso denegado: No existe permiso para " ++ sq
              ++ controller_name ++ sq⟩, cache)
          | some permiso_row =>
            match HTTP_METHOD_TO_PERMISSION req.method with
            | none =>
              (.response ⟨400, "Método HTTP no soportado: " ++ req.method⟩, cache)
            | some permission_column =>
              match rolePermisoQuery db role_id permiso_row.idPermiso with
              | none =>
                (.response ⟨403, "Acceso denegado: No existe relación rol-permiso para "
                  ++ payload.role ++ " y " ++ permiso_row.nombrePermiso⟩, cache)
              | some rp =>
                if columnValue rp permission_column then (.next, cache)
                else
                  (.response ⟨403, "Acceso denegado: El rol " ++ sq ++ payload.role
                    ++ sq ++ " no tiene permiso para " ++ req.method ++ " en " ++ sq
                    ++ permiso_row.nombrePermiso ++ sq⟩, cache)

/-! ## `RolesPermisosMiddleware.check_permission` (middleware.py lines 263–396)

The method the dispatch path never calls.  It consults `PERMISOS_CACHE`
first, then the joined SQL query, and writes the four flags back into the
cache keyed by the **original** `controller_name`. -/

/-- The cache probe (middleware.py 302–310): only entered when `role_name`
is a key of the outer dict; tries each controller variant in order and, on
the first hit, answers `inner[variant].get(permission_name, False)`. -/
def lookupVariants (inner : List (String × PermFlags)) :
    List String → String → Option Bool
  | [], _ => none
  | v :: rest, pname =>
    match assocFind inner v with
    | some flags => some (flagsGet flags pname)
    | none => lookupVariants inner rest pname

/-- `if role_name in PERMISOS_CACHE: for variant in controller_variants: ...`. -/
def cacheLookup (cache : Cache) (role_name : String) (variants : List String)
    (permission_name : String) : Option Bool :=
  match assocFind cache role_name with
  | none => none
  | some inner => lookupVariants inner variants permission_name

/-- The joined SQL query of `check_permission` (middleware.py 317–335):
first `RolesPermisos` row whose role joins a `Roles` row with the given
lowercased name and whose permission joins a `Permisos` row with the given
lowercased controller name. -/
def joinQuery (db : Db) (roleNameLower ctrlLower : String) : Option RolPermisoRow :=
  db.rolesPermisos.find? (fun rp =>
    (db.roles.any (fun r => r.idRol == rp.idRol && pyLower r.nombreRol == roleNameLower)) &&
    (db.permisos.any (fun p => p.idPermiso == rp.idPermiso && pyLower p.nombrePermiso == ctrlLower)))

/-- The `for variant in controller_variants` loop around the joined query
(middleware.py 339–350). -/
def checkDbLoop (db : Db) (roleNameLower : String) : List String → Option RolPermisoRow
  | [] => none
  | v :: rest =>
    match joinQuery db roleNameLower (pyLower v) with
    | some row => some row
    | none => checkDbLoop db roleNameLower rest

/-- `check_permission(role_name, controller_name, http_method)` returning the
boolean decision together with the possibly-updated module cache. -/
def check_permission (cache : Cache) (db : Db)
    (role_name controller_name http_method : String) : Bool × Cache :=
  if role_name == "Admin" || pyLower role_name == "admin" then (true, cache)
  else
    match HTTP_METHOD_TO_PERMISSION http_method with
    | none => (false, cache)
    | some permission_name =>
      let variants := controller_variants controller_name
      match cacheLookup cache role_name variants permission_name with
      | some result => (result, cache)
      | none =>
        match checkDbLoop db (pyLower role_name) variants with
        | none =>
          if pyLower role_name == "admin" then (true, cache) else (false, cache)
        | some rol_permiso =>
          let flags : PermFlags :=
            ⟨rol_permiso.crear, rol_permiso.editar, rol_permiso.leer, rol_permiso.eliminar⟩
          (flagsGet flags permission_name, cachePut cache role_name controller_name flags)

/-! ## Administrative CRUD surface (`controllers/rolespermiso_controller.py`)

Only the pieces the claims are about: the three write operations and their
interaction with the matrix and the cache.  `raise HTTPException` is an
`Except.error`; the returned `ResponseBase` message plus the new database and
cache state form the success value. -/

/-- `HTTPException(status_code=..., detail=...)`. -/
structure HttpError where
  status_code : Nat
  detail : String
  deriving DecidableEq

/-- Result of a successful controller write. -/
structure CtrlResult where
  newDb : Db
  newCache : Cache
  message : String
  deriving DecidableEq

/-- `RolPermisoCreate` (schemas/rolespermisos_schema.py): both ids required,
the four flags defaulting to `False` at the pydantic layer — by the time the
controller runs they are plain booleans. -/
structure RolPermisoCreate where
  IdRol : Nat
  IdPermiso : Nat
  Crear : Bool
  Editar : Bool
  Leer : Bool
  Eliminar : Bool
  deriving DecidableEq

/-- `RolPermisoUpdate`: four optional booleans, `None` meaning "leave as is". -/
structure RolPermisoUpdate where
  Crear : Option Bool
  Editar : Option Bool
  Leer : Option Bool
  Eliminar : Option Bool
  deriving DecidableEq

/-- `POST /rolespermisos/` — `create_or_update_rol_permiso`
(rolespermiso_controller.py lines 219–297). -/
def create_or_update_rol_permiso (rp_in : RolPermisoCreate) (db : Db)
    (cache : Cache) : Except HttpError CtrlResult :=
  if !(db.roles.any (fun r => r.idRol == rp_in.IdRol)) then
    .error ⟨404, "Rol no encontrado"⟩
  else if !(db.permisos.any (fun p => p.idPermiso == rp_in.IdPermiso)) then
    .error ⟨404, "Permiso no encontrado"⟩
  else
    let keyMatch := fun (rp : RolPermisoRow) =>
      rp.idRol == rp_in.IdRol && rp.idPermiso == rp_in.IdPermiso
    if db.rolesPermisos.any keyMatch then
      let newRows := db.rolesPermisos.map (fun rp =>
        if keyMatch rp then
          { rp with crear := rp_in.Crear, editar := rp_in.Editar,
                    leer := rp_in.Leer, eliminar := rp_in.Eliminar }
        else rp)
      .ok ⟨{ db with rolesPermisos := newRows }, clear_permissions_cache cache,
           "Permiso de rol actualizado correctamente"⟩
    else
      let newRow : RolPermisoRow :=
        ⟨rp_in.IdRol, rp_in.IdPermiso, rp_in.Crear, rp_in.Editar, rp_in.Leer, rp_in.Eliminar⟩
      .ok ⟨{ db with rolesPermisos := db.rolesPermisos ++ [newRow] },
           clear_permissions_cache cache, "Permiso de rol creado correctamente"⟩

/-- `PUT /rolespermisos/{rol_id}/{permiso_id}` — `update_rol_permiso`
(rolespermiso_controller.py lines 306–380): reads the existing row, merges
the non-`None` payload fields over it, and updates the row in place. -/
def update_rol_permiso (rol_id permiso_id : Nat) (rol_permiso : RolPermisoUpdate)
    (db : Db) (cache : Cache) : Except HttpError CtrlResult :=
  match db.rolesPermisos.find? (fun rp => rp.idRol == rol_id && rp.idPermiso == permiso_id) with
  | none => .error ⟨404, "Permiso de rol no encontrado"⟩
  | some existing =>
    let crear := match rol_permiso.Crear with | some b => b | none => existing.crear
    let editar := match rol_permiso.Editar with | some b => b | none => existing.editar
    let leer := match rol_permiso.Leer with | some b => b | none => existing.leer
    let eliminar := match rol_permiso.Eliminar with | some b => b | none => existing.eliminar
    let newRows := db.rolesPermisos.map (fun rp =>
      if rp.idRol == rol_id && rp.idPermiso == permiso_id then
        { rp with crear := crear, editar := editar, leer := leer, eliminar := eliminar }
      else rp)
    .ok ⟨{ db with rolesPermisos := newRows }, clear_permissions_cache cache,
         "Permiso de rol actualizado correctamente"⟩

/-- `DELETE /rolespermisos/{rol_id}/{permiso_id}` — `delete_rol_permiso`
(rolespermiso_controller.py lines 389–430). -/
def delete_rol_permiso (rol_id permiso_id : Nat) (db : Db) (cache : Cache) :
    Except HttpError CtrlResult :=
  if db.rolesPermisos.any (fun rp => rp.idRol == rol_id && rp.idPermiso == permiso_id) then
    let newRows := db.rolesPermisos.filter
      (fun rp => !(rp.idRol == rol_id && rp.idPermiso == permiso_id))
    .ok ⟨{ db with rolesPermisos := newRows }, clear_permissions_cache cache,
         "Permiso de rol eliminado correctamente"⟩
  else
    .error ⟨404, "Permiso de rol no encontrado"⟩

end CQTrails

namespace CQTrails

/-! ## Claim C1

The spec asserts an admin bypass in the gate.  The `dispatch` path performs
the full role / catalog / matrix resolution for every authenticated
principal, with no role-name special case: a principal whose role is the
superuser name `"Admin"` requesting a resource absent from the permission
catalog is denied with 403.  The bypass exists only in `check_permission`
(which answers `true` for `"Admin"` without touching cache or store), but
`dispatch` never calls `check_permission`. -/

/-- C1: at a store whose only row is the role `"Admin"` and whose permission
catalog is empty, the gate denies a GET on `/recursos` by an authenticated
`"Admin"` principal with HTTP 403 — while `check_permission` itself would
grant the same principal unconditionally, leaving the cache untouched.  This
contradicts the claimed superuser bypass of the gate. -/
theorem claim_C1_gate_admin_denied_on_unconfigured_resource :
    statusOf (dispatch ⟨[⟨1, "Admin"⟩], [], []⟩ []
        ⟨"/recursos", "GET", .ok ⟨some 7, "admin@cq.com", "Admin", []⟩⟩).1 = some 403
    ∧ check_permission [] ⟨[⟨1, "Admin"⟩], [], []⟩ "Admin" "recursos" "GET" = (true, []) := by
  decide

/-! ## Claim C9 -/

/-- C9: the gate's decision is independent of the contents of
`PERMISOS_CACHE` — two dispatches over the same store that differ only in
the cache state produce the same response — and `dispatch` returns the cache
unchanged. -/
theorem claim_C9_dispatch_ignores_cache (db : Db) (c₁ c₂ : Cache) (req : Request) :
    (dispatch db c₁ req).1 = (dispatch db c₂ req).1 ∧ (dispatch db c₁ req).2 = c₁ := by
  constructor <;> (unfold dispatch; dsimp only) <;> repeat' (first | rfl | split)

/-! ## Claim C4

`PERMISOS_CACHE` is `Dict[str, Dict[str, Dict[str, bool]]]`: an entry is
four booleans, with no insertion timestamp, and `check_permission` takes no
clock — there is no TTL anywhere in the middleware.  A cached decision is
therefore returned on every later lookup, however old, even when the backing
store has changed underneath it, until `clear_permissions_cache` runs. -/

/-- C4 counterexample: a cache holding `Leer = true` for
(`"Empleado"`, `"vehiculos"`) is answered from verbatim — decision `true`,
cache not overwritten — although the backing store's row says `Leer = false`
(second conjunct: the fresh lookup the claim demands would answer `false`).
Since `check_permission` has no time input at all, this holds at every age
of the entry, refuting the claimed TTL expiry. -/
theorem claim_C4_counterexample :
    check_permission [("Empleado", [("vehiculos", ⟨false, false, true, false⟩)])]
        ⟨[⟨1, "empleado"⟩], [⟨2, "vehiculos"⟩], [⟨1, 2, false, false, false, false⟩]⟩
        "Empleado" "vehiculos" "GET"
      = (true, [("Empleado", [("vehiculos", ⟨false, false, true, false⟩)])])
    ∧ (check_permission []
        ⟨[⟨1, "empleado"⟩], [⟨2, "vehiculos"⟩], [⟨1, 2, false, false, false, false⟩]⟩
        "Empleado" "vehiculos" "GET").1 = false := by
  decide

/-- C4 amended: cache entries carry no timestamp and never expire — on a
cache hit, `check_permission` returns the cached boolean unchanged and
leaves the cache as it was, for **every** backing store `db` (the store is
not consulted), until an explicit invalidation empties the cache. -/
theorem claim_C4_amended_cache_hit_never_expires (cache : Cache) (db : Db)
    (role ctrl m pname : String) (b : Bool)
    (hadmin : (role == "Admin" || pyLower role == "admin") = false)
    (hm : HTTP_METHOD_TO_PERMISSION m = some pname)
    (hhit : cacheLookup cache role (controller_variants ctrl) pname = some b) :
    check_permission cache db role ctrl m = (b, cache) := by
  unfold check_permission
  simp [hadmin, hm, hhit]

/-- C4 amended, witness: the stale cache of the counterexample is indeed a
cache hit, and the theorem applies to it. -/
theorem claim_C4_amended_witness :
    check_permission [("Empleado", [("vehiculos", ⟨false, false, true, false⟩)])]
        ⟨[⟨1, "empleado"⟩], [⟨2, "vehiculos"⟩], [⟨1, 2, false, false, false, false⟩]⟩
        "Empleado" "vehiculos" "GET"
      = (true, [("Empleado", [("vehiculos", ⟨false, false, true, false⟩)])]) :=
  claim_C4_amended_cache_hit_never_expires
    [("Empleado", [("vehiculos", ⟨false, false, true, false⟩)])]
    ⟨[⟨1, "empleado"⟩], [⟨2, "vehiculos"⟩], [⟨1, 2, false, false, false, false⟩]⟩
    "Empleado" "vehiculos" "GET" "Leer" true
    (by decide) (by decide) (by decide)

/-! ## Claim C6

Unsupported methods are not answered with 405 and not rejected before the
permission lookup: the method check sits *after* the role query and the
catalog resolution and answers HTTP 400. -/

/-- C6 counterexample: an authenticated `OPTIONS` request by a configured
role on a configured resource is answered `400 "Método HTTP no soportado:
OPTIONS"` (not a 405-class outcome); and when the role is unknown, the same
`OPTIONS` request is answered by the role-lookup 403 instead — so the method
rejection does not precede the database lookups. -/
theorem claim_C6_counterexample :
    (dispatch ⟨[⟨1, "Empleado"⟩], [⟨2, "vehiculos"⟩], []⟩ []
        ⟨"/vehiculos", "OPTIONS", .ok ⟨some 7, "e", "Empleado", []⟩⟩).1
      = .response ⟨400, "Método HTTP no soportado: OPTIONS"⟩
    ∧ statusOf (dispatch ⟨[], [], []⟩ []
        ⟨"/vehiculos", "OPTIONS", .ok ⟨some 7, "e", "Invitado", []⟩⟩).1 = some 403 := by
  decide

/-- C6 amended: a request whose method is outside GET/POST/PUT/PATCH/DELETE
is rejected with HTTP 400 (`"Método HTTP no soportado: <method>"`), and only
after the principal's role has been resolved in the `Roles` table and the
path's resource has been resolved in the permission catalog. -/
theorem claim_C6_amended_unsupported_method_400 (db : Db) (cache : Cache)
    (p : TokenPayload) (path m : String) (rid : Nat) (prow : PermisoRow)
    (hpub : isPublic path = false)
    (huid : truthyNat p.user_id = true)
    (hrole : (p.role == "") = false)
    (hrid : scalarTruthy (roleIdQuery db p.role) = some rid)
    (hres : resolvePermiso db (controller_variants (controllerOf path)) = some prow)
    (hm : HTTP_METHOD_TO_PERMISSION m = none) :
    (dispatch db cache ⟨path, m, .ok p⟩).1
      = .response ⟨400, "Método HTTP no soportado: " ++ m⟩ := by
  unfold dispatch
  simp [hpub, huid, hrole, hrid, hres, hm]

/-- C6 amended, witness. -/
theorem claim_C6_amended_witness :
    (dispatch ⟨[⟨1, "Empleado"⟩], [⟨2, "vehiculos"⟩], []⟩ []
        ⟨"/vehiculos", "OPTIONS", .ok ⟨some 7, "e", "Empleado", []⟩⟩).1
      = .response ⟨400, "Método HTTP no soportado: " ++ "OPTIONS"⟩ :=
  claim_C6_amended_unsupported_method_400
    ⟨[⟨1, "Empleado"⟩], [⟨2, "vehiculos"⟩], []⟩ []
    ⟨some 7, "e", "Empleado", []⟩ "/vehiculos" "OPTIONS" 1 ⟨2, "vehiculos"⟩
    (by decide) (by decide) (by decide) (by decide) (by decide) (by decide)

/-! ## Claim C2 -/

/-- C2: when a `RolesPermisos` row exists for the resolved (role id,
permission id) pair, the gate's allow/deny decision equals the stored
boolean of the column mapped from the HTTP method (GET→Leer, POST→Crear,
PUT→Editar, PATCH→Editar, DELETE→Eliminar); in particular a PUT and a PATCH
request, everything else equal, receive the same decision. -/
theorem claim_C2_decision_equals_stored_flag (db : Db) (cache : Cache)
    (p : TokenPayload) (path m : String) (rid : Nat) (prow : PermisoRow)
    (rp : RolPermisoRow) (col : String)
    (hpub : isPublic path = false)
    (huid : truthyNat p.user_id = true)
    (hrole : (p.role == "") = false)
    (hrid : scalarTruthy (roleIdQuery db p.role) = some rid)
    (hres : resolvePermiso db (controller_variants (controllerOf path)) = some prow)
    (hcol : HTTP_METHOD_TO_PERMISSION m = some col)
    (hrp : rolePermisoQuery db rid prow.idPermiso = some rp) :
    decisionAllowed (dispatch db cache ⟨path, m, .ok p⟩).1 = columnValue rp col
    ∧ HTTP_METHOD_TO_PERMISSION "GET" = some "Leer"
    ∧ HTTP_METHOD_TO_PERMISSION "POST" = some "Crear"
    ∧ HTTP_METHOD_TO_PERMISSION "PUT" = some "Editar"
    ∧ HTTP_METHOD_TO_PERMISSION "PATCH" = some "Editar"
    ∧ HTTP_METHOD_TO_PERMISSION "DELETE" = some "Eliminar"
    ∧ decisionAllowed (dispatch db cache ⟨path, "PUT", .ok p⟩).1
        = decisionAllowed (dispatch db cache ⟨path, "PATCH", .ok p⟩).1 := by
  refine ⟨?_, rfl, rfl, rfl, rfl, rfl, ?_⟩
  · unfold dispatch
    simp only [hpub, Bool.false_eq_true, if_false, huid, hrole, Bool.not_true,
      Bool.false_or]
    simp [hrid, hres, hcol, hrp]
    cases h : columnValue rp col <;> simp [h, decisionAllowed]
  · unfold dispatch
    simp only [hpub, Bool.false_eq_true, if_false, huid, hrole, Bool.not_true,
      Bool.false_or]
    simp [hrid, hres, hrp, HTTP_METHOD_TO_PERMISSION]
    cases h : columnValue rp "Editar" <;> simp [h, decisionAllowed]

/-- C2 witness: role `Empleado` with entry (`vehiculos`, Leer = true,
Crear = false) — a GET on `/vehiculos` yields the stored `Leer` flag. -/
theorem claim_C2_witness :
    decisionAllowed (dispatch ⟨[⟨1, "Empleado"⟩], [⟨2, "vehiculos"⟩],
        [⟨1, 2, false, false, true, false⟩]⟩ []
        ⟨"/vehiculos", "GET", .ok ⟨some 7, "e", "Empleado", []⟩⟩).1
      = columnValue ⟨1, 2, false, false, true, false⟩ "Leer" :=
  (claim_C2_decision_equals_stored_flag
    ⟨[⟨1, "Empleado"⟩], [⟨2, "vehiculos"⟩], [⟨1, 2, false, false, true, false⟩]⟩ []
    ⟨some 7, "e", "Empleado", []⟩ "/vehiculos" "GET" 1 ⟨2, "vehiculos"⟩
    ⟨1, 2, false, false, true, false⟩ "Leer"
    (by decide) (by decide) (by decide) (by decide) (by decide) (by decide)
    (by decide)).1

/-! ## Claim C5 -/

/-- C5: for an authenticated request, if the role name matches no `Roles`
row, or no catalog row matches any resource-name variant, or no
`RolesPermisos` row exists for the resolved pair, the gate denies: with HTTP
403 whenever the method is a supported one, and in every case the request is
neither let through nor answered with a 500. -/
theorem claim_C5_absence_is_denied (db : Db) (cache : Cache) (p : TokenPayload)
    (path m : String)
    (hpub : isPublic path = false)
    (huid : truthyNat p.user_id = true)
    (hrole : (p.role == "") = false)
    (habs : scalarTruthy (roleIdQuery db p.role) = none
      ∨ resolvePermiso db (controller_variants (controllerOf path)) = none
      ∨ ∃ rid prow, scalarTruthy (roleIdQuery db p.role) = some rid
          ∧ resolvePermiso db (controller_variants (controllerOf path)) = some prow
          ∧ rolePermisoQuery db rid prow.idPermiso = none) :
    (HTTP_METHOD_TO_PERMISSION m ≠ none
      → statusOf (dispatch db cache ⟨path, m, .ok p⟩).1 = some 403)
    ∧ (dispatch db cache ⟨path, m, .ok p⟩).1 ≠ .next
    ∧ statusOf (dispatch db cache ⟨path, m, .ok p⟩).1 ≠ some 500 := by
  unfold dispatch
  simp only [hpub, Bool.false_eq_true, if_false, huid, hrole, Bool.not_true,
    Bool.false_or]
  rcases habs with h | h | ⟨rid, prow, hrid, hres, hrp⟩
  · simp [h, statusOf]
  · cases hr : scalarTruthy (roleIdQuery db p.role) <;> simp [hr, h, statusOf]
  · cases hm : HTTP_METHOD_TO_PERMISSION m <;>
      simp [hrid, hres, hrp, hm, statusOf]

/-- C5 witness: unknown role `"Invitado"` over an empty store — GET on
`/vehiculos` is a 403, not allowed, not a 500. -/
theorem claim_C5_witness :
    statusOf (dispatch ⟨[], [], []⟩ []
        ⟨"/vehiculos", "GET", .ok ⟨some 7, "e", "Invitado", []⟩⟩).1 = some 403 :=
  (claim_C5_absence_is_denied ⟨[], [], []⟩ [] ⟨some 7, "e", "Invitado", []⟩
    "/vehiculos" "GET" (by decide) (by decide) (by decide)
    (Or.inl (by decide))).1 (by decide)

/-! ## Claim C8

Both outcomes do share the status code 403, but their bodies are different
and name the failing step, so the caller can tell a missing catalog row from
a denied action. -/

/-- C8 counterexample: the same request (`GET /vehiculos` by role
`"empleado"`) against two stores — one where no catalog row matches
(`ResourceUnresolvable`), one where the row exists but `Leer` is `false`
(`Forbidden`) — produces two 403 responses with different detail messages,
each revealing which case occurred. -/
theorem claim_C8_counterexample :
    (dispatch ⟨[⟨1, "empleado"⟩], [], []⟩ []
        ⟨"/vehiculos", "GET", .ok ⟨some 7, "e", "empleado", []⟩⟩).1
      = .response ⟨403,
          "Acceso denegado: No existe permiso para " ++ sq ++ "vehiculos" ++ sq⟩
    ∧ (dispatch ⟨[⟨1, "empleado"⟩], [⟨2, "vehiculos"⟩],
          [⟨1, 2, false, false, false, false⟩]⟩ []
        ⟨"/vehiculos", "GET", .ok ⟨some 7, "e", "empleado", []⟩⟩).1
      = .response ⟨403,
          "Acceso denegado: El rol " ++ sq ++ "empleado" ++ sq
            ++ " no tiene permiso para GET en " ++ sq ++ "vehiculos" ++ sq⟩
    ∧ ("Acceso denegado: No existe permiso para " ++ sq ++ "vehiculos" ++ sq)
      ≠ ("Acceso denegado: El rol " ++ sq ++ "empleado" ++ sq
            ++ " no tiene permiso para GET en " ++ sq ++ "vehiculos" ++ sq) := by
  decide

/-- C8 amended: `ResourceUnresolvable` and `Forbidden` both surface as HTTP
403, but with distinct detail messages that identify the case — the former
answers `"Acceso denegado: No existe permiso para <segment>"`, the latter
`"Acceso denegado: El rol <role> no tiene permiso para <method> en
<resource>"`. -/
theorem claim_C8_amended_both_403_distinct_messages (db : Db) (cache : Cache)
    (p : TokenPayload) (path m : String) (rid : Nat)
    (hpub : isPublic path = false)
    (huid : truthyNat p.user_id = true)
    (hrole : (p.role == "") = false)
    (hrid : scalarTruthy (roleIdQuery db p.role) = some rid) :
    (resolvePermiso db (controller_variants (controllerOf path)) = none
      → (dispatch db cache ⟨path, m, .ok p⟩).1
          = .response ⟨403, "Acceso denegado: No existe permiso para " ++ sq
              ++ controllerOf path ++ sq⟩)
    ∧ (∀ prow col rp,
        resolvePermiso db (controller_variants (controllerOf path)) = some prow
        → HTTP_METHOD_TO_PERMISSION m = some col
        → rolePermisoQuery db rid prow.idPermiso = some rp
        → columnValue rp col = false
        → (dispatch db cache ⟨path, m, .ok p⟩).1
            = .response ⟨403, "Acceso denegado: El rol " ++ sq ++ p.role ++ sq
                ++ " no tiene permiso para " ++ m ++ " en " ++ sq
                ++ prow.nombrePermiso ++ sq⟩) := by
  constructor
  · intro hres
    unfold dispatch
    simp [hpub, huid, hrole, hrid, hres]
  · intro prow col rp hres hcol hrp hflag
    unfold dispatch
    simp [hpub, huid, hrole, hrid, hres, hcol, hrp, hflag]

/-- C8 amended, witness: the `Forbidden` arm at the counterexample's
store. -/
theorem claim_C8_amended_witness :
    (dispatch ⟨[⟨1, "empleado"⟩], [⟨2, "vehiculos"⟩],
        [⟨1, 2, false, false, false, false⟩]⟩ []
        ⟨"/vehiculos", "GET", .ok ⟨some 7, "e", "empleado", []⟩⟩).1
      = .response ⟨403, "Acceso denegado: El rol " ++ sq ++ "empleado" ++ sq
          ++ " no tiene permiso para " ++ "GET" ++ " en " ++ sq
          ++ "vehiculos" ++ sq⟩ :=
  (claim_C8_amended_both_403_distinct_messages
    ⟨[⟨1, "empleado"⟩], [⟨2, "vehiculos"⟩], [⟨1, 2, false, false, false, false⟩]⟩ []
    ⟨some 7, "e", "empleado", []⟩ "/vehiculos" "GET" 1
    (by decide) (by decide) (by decide) (by decide)).2
    ⟨2, "vehiculos"⟩ "Leer" ⟨1, 2, false, false, false, false⟩
    (by decide) (by decide) (by decide) (by decide)

/-! ## Claim C3 -/

/-- C3: each successful write of the rolespermisos controller
(create-or-update, update, delete) ends with `clear_permissions_cache`, so
the cache it returns is empty; and a `check_permission` lookup on the
cleared cache takes its decision from the backing store's joined row — for
any pre-existing cache contents, so no previously cached decision can be
served. -/
theorem claim_C3_writes_clear_cache_and_next_lookup_requeries
    (db : Db) (cache : Cache) (rp_in : RolPermisoCreate) (rol pid : Nat)
    (u : RolPermisoUpdate) (role ctrl m pname : String) (rpRow : RolPermisoRow)
    (hcr : db.roles.any (fun r => r.idRol == rp_in.IdRol) = true)
    (hcp : db.permisos.any (fun pm => pm.idPermiso == rp_in.IdPermiso) = true)
    (hex : db.rolesPermisos.any (fun rp => rp.idRol == rol && rp.idPermiso == pid) = true)
    (hadmin : (role == "Admin" || pyLower role == "admin") = false)
    (hm : HTTP_METHOD_TO_PERMISSION m = some pname)
    (hrow : checkDbLoop db (pyLower role) (controller_variants ctrl) = some rpRow) :
    (∃ res, create_or_update_rol_permiso rp_in db cache = .ok res ∧ res.newCache = [])
    ∧ (∃ res, update_rol_permiso rol pid u db cache = .ok res ∧ res.newCache = [])
    ∧ (∃ res, delete_rol_permiso rol pid db cache = .ok res ∧ res.newCache = [])
    ∧ (check_permission (clear_permissions_cache cache) db role ctrl m).1
        = flagsGet ⟨rpRow.crear, rpRow.editar, rpRow.leer, rpRow.eliminar⟩ pname := by
  refine ⟨?_, ?_, ?_, ?_⟩
  · unfold create_or_update_rol_permiso
    simp only [hcr, hcp]
    cases h : db.rolesPermisos.any
        (fun rp => rp.idRol == rp_in.IdRol && rp.idPermiso == rp_in.IdPermiso) <;>
      simp [h, clear_permissions_cache]
  · have hfind : (db.rolesPermisos.find?
        (fun rp => rp.idRol == rol && rp.idPermiso == pid)).isSome = true := by
      rw [List.find?_isSome]
      simpa [List.any_eq_true] using hex
    rcases Option.isSome_iff_exists.mp hfind with ⟨e, he⟩
    unfold update_rol_permiso
    simp [he, clear_permissions_cache]
  · unfold delete_rol_permiso
    simp [hex, clear_permissions_cache]
  · unfold check_permission
    simp [hadmin, hm, clear_permissions_cache, cacheLookup, assocFind, hrow]

/-- C3 witness: one store, one pending write of each kind, and a lookup on
the cleared cache that reads the store's `Leer = true` row. -/
theorem claim_C3_witness :
    (∃ res, create_or_update_rol_permiso ⟨1, 2, true, false, false, false⟩
        ⟨[⟨1, "Empleado"⟩], [⟨2, "vehiculos"⟩], [⟨1, 2, false, false, true, false⟩]⟩
        [("Empleado", [("vehiculos", ⟨true, true, true, true⟩)])] = .ok res
      ∧ res.newCache = [])
    ∧ (∃ res, update_rol_permiso 1 2 ⟨none, none, some false, none⟩
        ⟨[⟨1, "Empleado"⟩], [⟨2, "vehiculos"⟩], [⟨1, 2, false, false, true, false⟩]⟩
        [("Empleado", [("vehiculos", ⟨true, true, true, true⟩)])] = .ok res
      ∧ res.newCache = [])
    ∧ (∃ res, delete_rol_permiso 1 2
        ⟨[⟨1, "Empleado"⟩], [⟨2, "vehiculos"⟩], [⟨1, 2, false, false, true, false⟩]⟩
        [("Empleado", [("vehiculos", ⟨true, true, true, true⟩)])] = .ok res
      ∧ res.newCache = [])
    ∧ (check_permission (clear_permissions_cache
          [("Empleado", [("vehiculos", ⟨true, true, true, true⟩)])])
        ⟨[⟨1, "Empleado"⟩], [⟨2, "vehiculos"⟩], [⟨1, 2, false, false, true, false⟩]⟩
        "Empleado" "vehiculos" "GET").1
        = flagsGet ⟨false, false, true, false⟩ "Leer" :=
  claim_C3_writes_clear_cache_and_next_lookup_requeries
    ⟨[⟨1, "Empleado"⟩], [⟨2, "vehiculos"⟩], [⟨1, 2, false, false, true, false⟩]⟩
    [("Empleado", [("vehiculos", ⟨true, true, true, true⟩)])]
    ⟨1, 2, true, false, false, false⟩ 1 2 ⟨none, none, some false, none⟩
    "Empleado" "vehiculos" "GET" "Leer" ⟨1, 2, false, false, true, false⟩
    (by decide) (by decide) (by decide) (by decide) (by decide) (by decide)

/-! ## Claim C7

Helper lemmas about the string model, then the closure of variant
resolution over singular/plural pairs. -/

/-- Appending strings appends their character data. -/
theorem str_data_append (a b : String) : (a ++ b).data = a.data ++ b.data := by
  cases a
  cases b
  rfl

/-- Strings with equal character data are equal. -/
theorem str_ext {a b : String} (h : a.data = b.data) : a = b := by
  cases a
  cases b
  exact congrArg String.mk h

/-- `(w + suf).endswith(suf)` is true. -/
theorem pyEndswith_append (w suf : String) : pyEndswith (w ++ suf) suf = true := by
  unfold pyEndswith
  rw [str_data_append]
  exact List.isSuffixOf_iff_suffix.mpr (List.suffix_append _ _)

/-- Dropping `len(suf)` characters from the right of `w + suf` gives `w`. -/
theorem pyDropRight_append (w suf : String) :
    pyDropRight (w ++ suf) suf.data.length = w := by
  apply str_ext
  show (w ++ suf).data.take ((w ++ suf).data.length - suf.data.length) = w.data
  rw [str_data_append, List.length_append, Nat.add_sub_cancel]
  exact List.take_left _ _

/-- `lower` distributes over append. -/
theorem pyLower_append (a b : String) :
    pyLower (a ++ b) = pyLower a ++ pyLower b := by
  apply str_ext
  show (a ++ b).data.map Char.toLower = (pyLower a ++ pyLower b).data
  rw [str_data_append a b, List.map_append, str_data_append (pyLower a) (pyLower b)]
  rfl

/-- Strings of different lengths are `==`-distinct. -/
theorem str_len_ne_beq_false {a b : String}
    (h : a.data.length ≠ b.data.length) : (a == b) = false :=
  beq_eq_false_iff_ne.mpr (fun he => h (by rw [he]))

/-- Length of an append at the data level. -/
theorem len_append_str (w suf : String) :
    (w ++ suf).data.length = w.data.length + suf.data.length := by
  rw [str_data_append, List.length_append]

/-- A name ending in neither `"es"` nor `"s"` gets itself plus the `+s` and
`+es` variants. -/
theorem controller_variants_base (w : String) (hes : pyEndswith w "es" = false)
    (hs : pyEndswith w "s" = false) :
    controller_variants w = [w, w ++ "s", w ++ "es"] := by
  simp [controller_variants, hes, hs]

/-- A name of the form `w + "es"` gets itself plus the stripped `w`. -/
theorem controller_variants_es (w : String) :
    controller_variants (w ++ "es") = [w ++ "es", w] := by
  have h := pyEndswith_append w "es"
  have hd : pyDropRight (w ++ "es") 2 = w := pyDropRight_append w "es"
  simp [controller_variants, h, hd]

/-- A name of the form `w + "s"` not ending in `"es"` gets itself plus the
stripped `w`. -/
theorem controller_variants_s (w : String) (hes : pyEndswith (w ++ "s") "es" = false) :
    controller_variants (w ++ "s") = [w ++ "s", w] := by
  have h := pyEndswith_append w "s"
  have hd : pyDropRight (w ++ "s") 1 = w := pyDropRight_append w "s"
  simp [controller_variants, hes, h, hd]

/-- One resolution step against a one-row catalog. -/
theorem resolvePermiso_single_cons (roles : List RolRow) (rps : List RolPermisoRow)
    (row : PermisoRow) (v : String) (rest : List String) :
    resolvePermiso ⟨roles, [row], rps⟩ (v :: rest)
      = if pyLower row.nombrePermiso == pyLower v then some row
        else resolvePermiso ⟨roles, [row], rps⟩ rest := by
  cases h : pyLower row.nombrePermiso == pyLower v <;>
    simp [resolvePermiso, permisoQuery, List.find?, h]

/-- C7: against a permission catalog holding exactly one row, spelled either
as the (lowercase) singular `w` — ending in neither `"s"` nor `"es"` — or as
its plural `p` (`w + "es"`, or `w + "s"` when that does not end in `"es"`),
resolving the singular and resolving the plural both succeed and both
return that same catalog row. -/
theorem claim_C7_singular_plural_resolve_same_row (w p : String)
    (row : PermisoRow) (roles : List RolRow) (rps : List RolPermisoRow)
    (hlw : pyLower w = w)
    (hes : pyEndswith w "es" = false)
    (hs : pyEndswith w "s" = false)
    (hp : p = w ++ "es" ∨ (p = w ++ "s" ∧ pyEndswith (w ++ "s") "es" = false))
    (hcat : pyLower row.nombrePermiso = w ∨ pyLower row.nombrePermiso = p) :
    resolvePermiso ⟨roles, [row], rps⟩ (controller_variants w) = some row
    ∧ resolvePermiso ⟨roles, [row], rps⟩ (controller_variants p) = some row := by
  have hlen_es : ("es" : String).data.length = 2 := rfl
  have hlen_s : ("s" : String).data.length = 1 := rfl
  have hlws : pyLower (w ++ "s") = w ++ "s" := by
    rw [pyLower_append, hlw]
    congr 1
  have hlwes : pyLower (w ++ "es") = w ++ "es" := by
    rw [pyLower_append, hlw]
    congr 1
  have hwvar := controller_variants_base w hes hs
  have hf_w_es : (w == w ++ "es") = false :=
    str_len_ne_beq_false (by rw [len_append_str, hlen_es]; omega)
  have hf_w_s : (w == w ++ "s") = false :=
    str_len_ne_beq_false (by rw [len_append_str, hlen_s]; omega)
  have hf_es_w : (w ++ "es" == w) = false :=
    str_len_ne_beq_false (by rw [len_append_str, hlen_es]; omega)
  have hf_s_w : (w ++ "s" == w) = false :=
    str_len_ne_beq_false (by rw [len_append_str, hlen_s]; omega)
  have hf_es_s : (w ++ "es" == w ++ "s") = false :=
    str_len_ne_beq_false
      (by rw [len_append_str, len_append_str, hlen_es, hlen_s]; omega)
  rcases hp with hpe | ⟨hps, hpes⟩
  · subst hpe
    have hpvar := controller_variants_es w
    rcases hcat with hc | hc
    · constructor
      · rw [hwvar]
        simp [resolvePermiso_single_cons, hc, hlw]
      · rw [hpvar]
        simp [resolvePermiso_single_cons, hc, hlw, hlwes, hf_w_es]
    · constructor
      · rw [hwvar]
        simp [resolvePermiso_single_cons, hc, hlw, hlws, hlwes, hf_es_w, hf_es_s]
      · rw [hpvar]
        simp [resolvePermiso_single_cons, hc, hlwes]
  · subst hps
    have hpvar := controller_variants_s w hpes
    rcases hcat with hc | hc
    · constructor
      · rw [hwvar]
        simp [resolvePermiso_single_cons, hc, hlw]
      · rw [hpvar]
        simp [resolvePermiso_single_cons, hc, hlw, hlws, hf_w_s]
    · constructor
      · rw [hwvar]
        simp [resolvePermiso_single_cons, hc, hlw, hlws, hf_s_w]
      · rw [hpvar]
        simp [resolvePermiso_single_cons, hc, hlws]

/-- C7 witness: `"ciudad"` and `"ciudades"` against a catalog whose only
entry is named `"ciudades"` both resolve to that entry. -/
theorem claim_C7_witness :
    resolvePermiso ⟨[], [⟨1, "ciudades"⟩], []⟩ (controller_variants "ciudad")
      = some ⟨1, "ciudades"⟩
    ∧ resolvePermiso ⟨[], [⟨1, "ciudades"⟩], []⟩ (controller_variants "ciudades")
      = some ⟨1, "ciudades"⟩ := by
  have h := claim_C7_singular_plural_resolve_same_row "ciudad" "ciudades"
    ⟨1, "ciudades"⟩ [] [] (by decide) (by decide) (by decide)
    (Or.inl (by decide)) (Or.inr (by decide))
  exact h

/-! ## Claim C10 -/

/-- Two members of a list of length at most one are equal. -/
theorem mem_eq_of_length_le_one {α : Type} {l : List α} (h : l.length ≤ 1)
    {a b : α} (ha : a ∈ l) (hb : b ∈ l) : a = b := by
  match l with
  | [] => cases ha
  | [x] =>
    rw [List.mem_singleton] at ha hb
    rw [ha, hb]
  | x :: y :: t => simp at h

/-- C10: `update_rol_permiso` merges the payload over the stored row —
every flag whose payload field is `none` keeps its previous value and every
flag whose field is `some b` becomes `b` — leaves the row's key intact,
leaves every other matrix row (and the `Roles` and `Permisos` tables)
unchanged, and preserves the number of rows.  The `huniq` hypothesis is the
data-model invariant: at most one entry per (role, permission) pair. -/
theorem claim_C10_partial_update_frame (db : Db) (cache : Cache)
    (rol pid : Nat) (u : RolPermisoUpdate) (res : CtrlResult)
    (hok : update_rol_permiso rol pid u db cache = .ok res)
    (huniq : (db.rolesPermisos.filter
        (fun rp => rp.idRol == rol && rp.idPermiso == pid)).length ≤ 1) :
    res.newDb.rolesPermisos.length = db.rolesPermisos.length
    ∧ res.newDb.roles = db.roles
    ∧ res.newDb.permisos = db.permisos
    ∧ ∀ i (hi : i < db.rolesPermisos.length)
        (hi2 : i < res.newDb.rolesPermisos.length),
        (¬(db.rolesPermisos[i].idRol = rol ∧ db.rolesPermisos[i].idPermiso = pid)
          → res.newDb.rolesPermisos[i] = db.rolesPermisos[i])
        ∧ ((db.rolesPermisos[i].idRol = rol ∧ db.rolesPermisos[i].idPermiso = pid)
          → res.newDb.rolesPermisos[i].idRol = db.rolesPermisos[i].idRol
            ∧ res.newDb.rolesPermisos[i].idPermiso = db.rolesPermisos[i].idPermiso
            ∧ res.newDb.rolesPermisos[i].crear
                = (match u.Crear with
                   | some b => b
                   | none => db.rolesPermisos[i].crear)
            ∧ res.newDb.rolesPermisos[i].editar
                = (match u.Editar with
                   | some b => b
                   | none => db.rolesPermisos[i].editar)
            ∧ res.newDb.rolesPermisos[i].leer
                = (match u.Leer with
                   | some b => b
                   | none => db.rolesPermisos[i].leer)
            ∧ res.newDb.rolesPermisos[i].eliminar
                = (match u.Eliminar with
                   | some b => b
                   | none => db.rolesPermisos[i].eliminar)) := by
  unfold update_rol_permiso at hok
  cases hfind : db.rolesPermisos.find?
      (fun rp => rp.idRol == rol && rp.idPermiso == pid) with
  | none => rw [hfind] at hok; cases hok
  | some e =>
    rw [hfind] at hok
    dsimp only at hok
    cases hok
    refine ⟨by simp, rfl, rfl, ?_⟩
    intro i hi hi2
    have hmem : db.rolesPermisos[i] ∈ db.rolesPermisos := List.getElem_mem _
    constructor
    · intro hne
      cases hkb : (db.rolesPermisos[i].idRol == rol
          && db.rolesPermisos[i].idPermiso == pid) with
      | false => simp only [List.getElem_map, hkb, Bool.false_eq_true, if_false]
      | true => exact absurd (by simpa using hkb) hne
    · intro hkeyp
      have hkey : (db.rolesPermisos[i].idRol == rol
          && db.rolesPermisos[i].idPermiso == pid) = true := by
        simpa using hkeyp
      have heq : db.rolesPermisos[i] = e := by
        apply mem_eq_of_length_le_one huniq
        · exact List.mem_filter.mpr ⟨hmem, hkey⟩
        · exact List.mem_filter.mpr ⟨List.mem_of_find?_eq_some hfind,
            by simpa using List.find?_some hfind⟩
      simp only [List.getElem_map, hkey, if_true]
      rw [← heq]
      simp

/-- C10 witness: updating only `Leer` of the row (1, 2) — whose concrete
result is computed in full — preserves the row count and leaves the
unrelated row (3, 4) untouched. -/
theorem claim_C10_witness :
    ((⟨⟨[], [],
        [⟨1, 2, true, true, false, true⟩, ⟨3, 4, true, false, true, false⟩]⟩,
      [], "Permiso de rol actualizado correctamente"⟩ : CtrlResult)).newDb.rolesPermisos.length
      = ((⟨[], [], [⟨1, 2, true, true, true, true⟩,
          ⟨3, 4, true, false, true, false⟩]⟩ : Db)).rolesPermisos.length
    ∧ ((⟨⟨[], [],
        [⟨1, 2, true, true, false, true⟩, ⟨3, 4, true, false, true, false⟩]⟩,
      [], "Permiso de rol actualizado correctamente"⟩ : CtrlResult)).newDb.rolesPermisos[1]
      = ((⟨[], [], [⟨1, 2, true, true, true, true⟩,
          ⟨3, 4, true, false, true, false⟩]⟩ : Db)).rolesPermisos[1] := by
  have h := claim_C10_partial_update_frame
    ⟨[], [], [⟨1, 2, true, true, true, true⟩, ⟨3, 4, true, false, true, false⟩]⟩
    [] 1 2 ⟨none, none, some false, none⟩
    ⟨⟨[], [], [⟨1, 2, true, true, false, true⟩, ⟨3, 4, true, false, true, false⟩]⟩,
      [], "Permiso de rol actualizado correctamente"⟩
    (by rfl) (by decide)
  exact ⟨h.1, (h.2.2.2 1 (by decide) (by decide)).1 (by decide)⟩

end CQTrails
